import Mathlib

/-!
# Verification of the AutoAgentHire application-orchestration engine

A shallow embedding of the core of the repository
(`app/services/auto_apply.py`, `app/services/matcher.py`,
`automation/linkedin_bot.py`, `app/config.py`, `app/models/job_schema.py`)
together with theorems settling the stated properties of the engine.

Python floats are modelled as rationals (`ℚ`), timestamps as naturals,
Python dicts with a fixed literal shape as structures.  External
collaborators (the embedding provider's cosine similarity and the AI judge
reply) are modelled as `Option ℚ` inputs: `none` is any of the error /
unavailable paths that the code maps to its fallback value.
-/

/-- `app/models/job_schema.py`, `JobDetails` (the fields read by the matcher
and the orchestrator; the remaining fields are never read by the core). -/
structure JobDetails where
  id : String
  title : String
  company : String
  location : String
  url : String
  description : String
  requirements : List String
  jobType : String
  experienceLevel : String
  matchScore : Option ℚ
deriving DecidableEq

/-- The user profile dict produced by the resume parser, restricted to the
fields the matcher reads: `skills`, `experience` (only its length is used,
as a years-of-experience proxy) and `personal_info["location"]`. -/
structure UserProfile where
  skills : List String
  experience : List String
  location : String
deriving DecidableEq

/-- The application-record dict built at `auto_apply.py` lines 152-160 and
appended to `application_history`; `retriedAt` is the `retried_at` key added
at line 322 on a successful retry (absent, i.e. `none`, at creation). -/
structure AppRecord where
  jobId : String
  jobTitle : String
  company : String
  appliedAt : ℕ
  success : Bool
  matchScore : Option ℚ
  coverLetterGenerated : Bool
  retriedAt : Option ℕ
deriving DecidableEq

/-- Python's substring test `needle in hay` on strings. -/
def strContainsSub (hay needle : String) : Bool :=
  (List.range (hay.toList.length + 1)).any
    (fun i => needle.toList.isPrefixOf (hay.toList.drop i))

/-! ## HistoryLedger: dedup filter (`AutoApplyService._filter_applied_jobs`) -/

/-- `auto_apply.py` lines 119-131: `applied_job_ids = {app["job_id"] for app
in history}`; keep the jobs whose id is not in that set (set membership is
modelled by list membership, which has the same semantics). -/
def filterAppliedJobs (history : List AppRecord) (jobs : List JobDetails) :
    List JobDetails :=
  let appliedJobIds := history.map (fun r => r.jobId)
  jobs.filter (fun job => !(appliedJobIds.contains job.id))

/-! ## Throttle: the daily counter (`applications_today`)

`applications_today` is written in exactly three places in the repository:
`auto_apply.py` line 31 (`= 0` in `__init__`), line 63 (`+= 1` inside the
main loop, behind the line-57 guard `applications_today >=
MAX_APPLICATIONS_PER_DAY: break`) and line 318 (`+= 1` inside
`retry_failed_applications`, behind the line-294 guard of the same shape).
Both loops therefore have the same counter dynamics, modelled by
`applyBatch` over the list of per-job submission outcomes (an early break
on `is_running` only truncates that list). -/
def applyBatch (ceiling : ℕ) (count : ℕ) : List Bool → ℕ
  | [] => count
  | ok :: rest =>
      if ceiling ≤ count then count
      else applyBatch ceiling (if ok then count + 1 else count) rest

/-- Arbitrarily many cycles (main-loop batches and retry batches, in any
order), starting from the constructor value `applications_today = 0`. -/
def runCycles (ceiling : ℕ) (batches : List (List Bool)) : ℕ :=
  batches.foldl (applyBatch ceiling) 0

/-- The run state that the quota checks read, together with the wall-clock
date (as an abstract day index).  The code itself stores no date next to
the counter. -/
structure ServiceState where
  applicationsToday : ℕ
  wallClockDate : ℕ
deriving DecidableEq

/-- The quota checks at `auto_apply.py` lines 45, 57 and 294 all read
`self.applications_today` directly. -/
def quotaCheckCount (s : ServiceState) : ℕ := s.applicationsToday

/-- The wall-clock date advancing to the next day.  No code path writes
`applications_today` other than the three listed above, and none of them is
conditioned on a date, so a date change leaves the counter unchanged. -/
def advanceDay (s : ServiceState) : ServiceState :=
  { s with wallClockDate := s.wallClockDate + 1 }

theorem applyBatch_le (ceiling : ℕ) :
    ∀ (outcomes : List Bool) (count : ℕ), count ≤ ceiling →
      applyBatch ceiling count outcomes ≤ ceiling := by
  intro outcomes
  induction outcomes with
  | nil => intro count h; simpa [applyBatch] using h
  | cons ok rest ih =>
      intro count h
      by_cases hc : ceiling ≤ count
      · simpa [applyBatch, hc] using h
      · have hlt : count < ceiling := lt_of_not_le hc
        have : (if ok then count + 1 else count) ≤ ceiling := by
          cases ok <;> simp <;> omega
        simpa [applyBatch, hc] using ih _ this

/-- Claim C3: across arbitrarily many cycles of the main loop and any
number of retry invocations, the daily counter (which counts exactly the
submissions recorded as successful) never exceeds the configured ceiling:
every increment sits behind a guard that the counter is strictly below the
ceiling. -/
theorem daily_counter_le_ceiling (ceiling : ℕ) (batches : List (List Bool)) :
    runCycles ceiling batches ≤ ceiling := by
  have h : ∀ (bs : List (List Bool)) (c : ℕ), c ≤ ceiling →
      bs.foldl (applyBatch ceiling) c ≤ ceiling := by
    intro bs
    induction bs with
    | nil => intro c hc; simpa using hc
    | cons b rest ih =>
        intro c hc
        exact ih _ (applyBatch_le ceiling b c hc)
  exact h batches 0 (Nat.zero_le _)

/-- Claim C4: the code keeps the counter across a date change.  A run state
that reached the ceiling (50, the configured default) on day 0 still shows
a count of 50 — not zero — to the next quota check after the calendar
advances to day 1, because no code path resets `applications_today`. -/
theorem quota_check_ignores_date_change :
    quotaCheckCount (advanceDay { applicationsToday := 50, wallClockDate := 0 }) = 50 ∧
      (50 : ℕ) ≠ 0 := by
  constructor
  · rfl
  · decide

/-! ## SubmissionStateMachine (`LinkedInBot._handle_application_process`) -/

/-- The outcome of the five channel probes one iteration of the loop at
`linkedin_bot.py` lines 232-259 can make, in their priority order:
`_handle_application_form`, `_handle_application_questions`,
`_submit_application` (true iff an enabled submit control was found and
invoked), `_is_application_submitted`, `_click_next_button`. -/
structure StepProbe where
  formHandled : Bool
  questionsHandled : Bool
  submitClicked : Bool
  confirmationShown : Bool
  nextClicked : Bool
deriving DecidableEq

/-- `linkedin_bot.py` lines 229-262: the `while current_step < max_steps`
loop, with the probe responses of iteration `i` given by `probes i` and the
remaining iteration budget as fuel.  Exhausting the budget (fuel 0) falls
through to `return False` at line 262; so does the final `break`. -/
def runApplicationSteps (probes : ℕ → StepProbe) : ℕ → ℕ → Bool
  | 0, _ => false
  | fuel + 1, i =>
      let p := probes i
      if p.formHandled then runApplicationSteps probes fuel (i + 1)
      else if p.questionsHandled then runApplicationSteps probes fuel (i + 1)
      else if p.submitClicked then true
      else if p.confirmationShown then true
      else if p.nextClicked then runApplicationSteps probes fuel (i + 1)
      else false

/-- `max_steps = 5` at `linkedin_bot.py` line 229. -/
def maxSteps : ℕ := 5

/-- `_handle_application_process` run from the first step. -/
def handleApplicationProcess (probes : ℕ → StepProbe) : Bool :=
  runApplicationSteps probes maxSteps 0

/-- How many loop iterations (`current_step` increments) the run performs. -/
def applicationStepsUsed (probes : ℕ → StepProbe) : ℕ → ℕ → ℕ
  | 0, _ => 0
  | fuel + 1, i =>
      let p := probes i
      if p.formHandled then applicationStepsUsed probes fuel (i + 1) + 1
      else if p.questionsHandled then applicationStepsUsed probes fuel (i + 1) + 1
      else if p.submitClicked then 1
      else if p.confirmationShown then 1
      else if p.nextClicked then applicationStepsUsed probes fuel (i + 1) + 1
      else 1

/-- A step is non-terminal (the loop takes a `continue` branch) iff the
form or the questions were handled, or nothing terminal applied but a
next/continue control was clicked. -/
def stepContinues (p : StepProbe) : Bool :=
  p.formHandled || p.questionsHandled ||
    (!p.submitClicked && !p.confirmationShown && p.nextClicked)

theorem applicationStepsUsed_le (probes : ℕ → StepProbe) :
    ∀ (fuel i : ℕ), applicationStepsUsed probes fuel i ≤ fuel := by
  intro fuel
  induction fuel with
  | zero => intro i; simp [applicationStepsUsed]
  | succ n ih =>
      intro i
      simp only [applicationStepsUsed]
      split
      · exact Nat.succ_le_succ (ih (i + 1))
      · split
        · exact Nat.succ_le_succ (ih (i + 1))
        · split
          · omega
          · split
            · omega
            · split
              · exact Nat.succ_le_succ (ih (i + 1))
              · omega

theorem runApplicationSteps_exhaust (probes : ℕ → StepProbe) :
    ∀ (fuel i : ℕ), (∀ k, i ≤ k → k < i + fuel → stepContinues (probes k) = true) →
      runApplicationSteps probes fuel i = false := by
  intro fuel
  induction fuel with
  | zero => intro i _; rfl
  | succ n ih =>
      intro i h
      have hcont : stepContinues (probes i) = true := h i le_rfl (by omega)
      have hrest : ∀ k, i + 1 ≤ k → k < (i + 1) + n → stepContinues (probes k) = true := by
        intro k hk1 hk2
        exact h k (by omega) (by omega)
      have htail := ih (i + 1) hrest
      simp only [stepContinues, Bool.or_eq_true, Bool.and_eq_true,
        Bool.not_eq_true'] at hcont
      simp only [runApplicationSteps]
      rcases hcont with (hform | hq) | ⟨⟨hsub, hconf⟩, hnext⟩
      · simp [hform, htail]
      · simp [hq, htail]
      · simp [hsub, hconf, hnext, htail]

/-- Claim C6: for every deterministic sequence of channel probe responses,
the submission state machine performs at most 5 loop steps, always ends in
a terminal boolean outcome (success = Confirmed / failure = Failed), and
exhausting the budget with every step non-terminal yields Failed. -/
theorem application_process_bounded_terminates (probes : ℕ → StepProbe) :
    applicationStepsUsed probes maxSteps 0 ≤ maxSteps ∧
      (handleApplicationProcess probes = true ∨
        handleApplicationProcess probes = false) ∧
      ((∀ i, i < maxSteps → stepContinues (probes i) = true) →
        handleApplicationProcess probes = false) := by
  refine ⟨applicationStepsUsed_le probes maxSteps 0, ?_, ?_⟩
  · exact Bool.eq_false_or_eq_true (handleApplicationProcess probes)
  · intro h
    exact runApplicationSteps_exhaust probes maxSteps 0
      (fun k hk1 hk2 => h k (by omega))

/-- A probe sequence that only ever offers a next/continue control: the
machine keeps clicking next and exhausts its budget. -/
def nextOnlyProbes : ℕ → StepProbe :=
  fun _ => ⟨false, false, false, false, true⟩

/-- Witness for C6 at a concrete probe sequence. -/
theorem application_process_bounded_witness :
    applicationStepsUsed nextOnlyProbes maxSteps 0 ≤ maxSteps ∧
      handleApplicationProcess nextOnlyProbes = false :=
  ⟨(application_process_bounded_terminates nextOnlyProbes).1,
    (application_process_bounded_terminates nextOnlyProbes).2.2
      (fun _ _ => rfl)⟩

/-- A probe sequence whose step offers an enabled submit control while the
confirmation probe would never report a confirmation signal. -/
def submitNoConfirmProbes : ℕ → StepProbe :=
  fun _ => ⟨false, false, true, false, false⟩

/-- Claim C7, counterexample: with an enabled submit control and the
confirmation signal absent at every step, the machine still terminates in
the success outcome — `_submit_application` returns `True` right after
clicking submit (lines 391-394) and `_handle_application_process` returns
`True` at line 248 without any confirmation probe. -/
theorem submit_without_confirmation_still_confirmed_cex :
    handleApplicationProcess submitNoConfirmProbes = true ∧
      (submitNoConfirmProbes 0).confirmationShown = false := by
  constructor
  · rfl
  · rfl

/-- Claim C7, amended: in a step where neither the form nor the questions
were handled and an enabled submit control is found, the machine invokes it
and terminates in the success outcome immediately — independent of whether
a confirmation signal is present; no confirmation probe follows the submit
invocation. -/
theorem submit_step_confirms_immediately (probes : ℕ → StepProbe)
    (fuel i : ℕ) (hform : (probes i).formHandled = false)
    (hq : (probes i).questionsHandled = false)
    (hsub : (probes i).submitClicked = true) :
    runApplicationSteps probes (fuel + 1) i = true := by
  simp [runApplicationSteps, hform, hq, hsub]

/-- Witness for the amended C7 at a concrete probe sequence and step. -/
theorem submit_step_confirms_witness :
    runApplicationSteps submitNoConfirmProbes (4 + 1) 0 = true :=
  submit_step_confirms_immediately submitNoConfirmProbes 4 0 rfl rfl rfl

/-! ## Retry selection (`AutoApplyService.retry_failed_applications`) -/

/-- `auto_apply.py` lines 282-293: `failed_applications = [app for app in
self.application_history if not app["success"]]`, then the loop visits
`failed_applications[:max_retries]`. -/
def failedApplicationsForRetry (history : List AppRecord) (maxRetries : ℕ) :
    List AppRecord :=
  (history.filter (fun r => !r.success)).take maxRetries

/-- Stable insertion of a record into a list already sorted by descending
`applied_at`. -/
def insertDescApplied (r : AppRecord) : List AppRecord → List AppRecord
  | [] => [r]
  | x :: xs =>
      if x.appliedAt ≤ r.appliedAt then r :: x :: xs
      else x :: insertDescApplied r xs

/-- Insertion sort by descending `applied_at` (most recent first). -/
def sortByAppliedDesc : List AppRecord → List AppRecord
  | [] => []
  | x :: xs => insertDescApplied x (sortByAppliedDesc xs)

/-- Modelled from the spec's words for comparison: records with status
Failed, most-recent-first (descending `applied_at`), capped to the limit. -/
def specFailedRecords (history : List AppRecord) (limit : ℕ) :
    List AppRecord :=
  (sortByAppliedDesc (history.filter (fun r => !r.success))).take limit

/-- An older failed record. -/
def recOldFail : AppRecord :=
  { jobId := "job-A", jobTitle := "A", company := "acme", appliedAt := 1,
    success := false, matchScore := some (9/10),
    coverLetterGenerated := true, retriedAt := none }

/-- A newer failed record. -/
def recNewFail : AppRecord :=
  { jobId := "job-B", jobTitle := "B", company := "acme", appliedAt := 2,
    success := false, matchScore := some (8/10),
    coverLetterGenerated := true, retriedAt := none }

/-- Claim C8, counterexample: with two failed records in the ledger and
limit 1, the code selects the oldest (first-appended) failed record, not the
most recent one the claim requires. -/
theorem retry_selection_not_most_recent_first :
    failedApplicationsForRetry [recOldFail, recNewFail] 1 = [recOldFail] ∧
      specFailedRecords [recOldFail, recNewFail] 1 = [recNewFail] ∧
      recOldFail ≠ recNewFail := by
  refine ⟨rfl, rfl, by decide⟩

/-- Claim C8, amended: the sequence selected for retry consists exactly of
records with failed status, in ledger insertion order (oldest-appended
first), capped to the limit: it is an initial segment of the failed-filtered
ledger, every selected record is failed, and its length is the minimum of
the limit and the number of failed records. -/
theorem retry_selection_ledger_order (history : List AppRecord) (limit : ℕ) :
    (∃ rest, history.filter (fun r => !r.success) =
        failedApplicationsForRetry history limit ++ rest) ∧
      (∀ r ∈ failedApplicationsForRetry history limit, r.success = false) ∧
      (failedApplicationsForRetry history limit).length =
        min limit (history.filter (fun r => !r.success)).length := by
  unfold failedApplicationsForRetry
  refine ⟨⟨(history.filter (fun r => !r.success)).drop limit,
    (List.take_append_drop limit _).symm⟩, ?_, by simp⟩
  intro r hr
  have hmem : r ∈ history.filter (fun r => !r.success) :=
    List.mem_of_mem_take hr
  have := (List.mem_filter.mp hmem).2
  simpa using this

/-- Witness for the amended C8 at a concrete ledger. -/
theorem retry_selection_ledger_order_witness :
    (∃ rest, List.filter (fun r => !r.success) [recOldFail, recNewFail] =
        failedApplicationsForRetry [recOldFail, recNewFail] 1 ++ rest) ∧
      (∀ r ∈ failedApplicationsForRetry [recOldFail, recNewFail] 1,
        r.success = false) ∧
      (failedApplicationsForRetry [recOldFail, recNewFail] 1).length =
        min 1 (List.filter (fun r => !r.success)
          [recOldFail, recNewFail]).length :=
  retry_selection_ledger_order [recOldFail, recNewFail] 1

/-- Claim C5: filtering discovered postings against an unchanged ledger is
idempotent — applying the already-applied filter twice yields exactly the
result of applying it once. -/
theorem filter_applied_jobs_idempotent (history : List AppRecord)
    (jobs : List JobDetails) :
    filterAppliedJobs history (filterAppliedJobs history jobs) =
      filterAppliedJobs history jobs := by
  simp [filterAppliedJobs, List.filter_filter]

/-! ## Ledger record shape and stats (`_apply_to_job`, `get_application_stats`) -/

/-- The literal key set of the `application_record` dict built at
`auto_apply.py` lines 152-160. -/
def applicationRecordKeys : List String :=
  ["job_id", "job_title", "company", "applied_at", "success", "match_score",
    "cover_letter_generated"]

/-- `auto_apply.py` lines 133-163: the record `_apply_to_job` appends to the
ledger, built from the bot outcome.  `bool(cover_letter)` is false for both
`None` and the empty string. -/
def applyToJobRecord (job : JobDetails) (now : ℕ) (botSuccess : Bool)
    (coverLetter : Option String) : AppRecord :=
  { jobId := job.id, jobTitle := job.title, company := job.company,
    appliedAt := now, success := botSuccess, matchScore := job.matchScore,
    coverLetterGenerated := coverLetter.getD "" != "", retriedAt := none }

/-- A concrete discovered posting used in the closed evaluations below. -/
def exJobC9 : JobDetails :=
  { id := "job-77", title := "Backend Engineer", company := "acme",
    location := "Paris", url := "https://example.org/77",
    description := "", requirements := [], jobType := "",
    experienceLevel := "", matchScore := some (8/10) }

/-- Claim C9: the code appends a record that carries no error-message field
at all.  At the failing input (a submission whose channel only ever offers
a next/continue control, so the state machine exhausts its 5-step budget
and ends in Failed), the record has `success = False` but its key set
contains neither an `error_message` nor an `error` key — contradicting the
claim (and the repository's own `ApplicationRecord` schema, which declares
`error_message` with description "Error message if failed"). -/
theorem failed_record_lacks_error_message :
    handleApplicationProcess nextOnlyProbes = false ∧
      (applyToJobRecord exJobC9 7 (handleApplicationProcess nextOnlyProbes)
        none).success = false ∧
      applicationRecordKeys.contains "error_message" = false ∧
      applicationRecordKeys.contains "error" = false := by
  decide

/-- `auto_apply.py` line 228: `[app["match_score"] for app in
self.application_history if app["match_score"]]` — the scores of records
whose stored match score is truthy, i.e. neither `None` nor `0.0`. -/
def truthyMatchScores (history : List AppRecord) : List ℚ :=
  history.filterMap (fun r =>
    match r.matchScore with
    | none => none
    | some s => if s = 0 then none else some s)

/-- `auto_apply.py` line 229: `sum(match_scores) / len(match_scores) if
match_scores else 0` (the rounding applied when the dict is assembled at
line 245 is presentation only and not modelled). -/
def averageMatchScore (history : List AppRecord) : ℚ :=
  let xs := truthyMatchScores history
  if xs.isEmpty then 0 else xs.sum / xs.length

/-- Claim C10: the reported average is computed only over records whose
stored match score is truthy — a record whose score is `None` or exactly 0
is excluded (prepending one never changes the average), and for a history
containing only such records the collected score list is empty, so the
reported average is 0 via the empty-case fallback, not by division. -/
theorem average_match_score_truthy_only (history : List AppRecord) :
    (∀ r : AppRecord, r.matchScore = none ∨ r.matchScore = some 0 →
      averageMatchScore (r :: history) = averageMatchScore history) ∧
    ((∀ s ∈ history, s.matchScore = none ∨ s.matchScore = some 0) →
      truthyMatchScores history = [] ∧ averageMatchScore history = 0) := by
  constructor
  · intro r hr
    have hnone : (match r.matchScore with
        | none => none
        | some s => if s = 0 then none else some s : Option ℚ) = none := by
      rcases hr with h | h <;> simp [h]
    simp [averageMatchScore, truthyMatchScores, hnone]
  · intro hall
    have hempty : truthyMatchScores history = [] := by
      rw [truthyMatchScores, List.filterMap_eq_nil_iff]
      intro s hs
      rcases hall s hs with h | h <;> simp [h]
    exact ⟨hempty, by simp [averageMatchScore, hempty]⟩

/-- A failed record whose stored match score is exactly 0. -/
def recZeroScore : AppRecord :=
  { jobId := "job-Z", jobTitle := "Z", company := "acme", appliedAt := 3,
    success := true, matchScore := some 0,
    coverLetterGenerated := false, retriedAt := none }

/-- Witness for C10 on a concrete history of zero-score records. -/
theorem average_match_score_truthy_witness :
    averageMatchScore (recZeroScore :: [recZeroScore]) =
        averageMatchScore [recZeroScore] ∧
      truthyMatchScores [recZeroScore] = [] ∧
      averageMatchScore [recZeroScore] = 0 :=
  ⟨(average_match_score_truthy_only [recZeroScore]).1 recZeroScore
      (Or.inr rfl),
    (average_match_score_truthy_only [recZeroScore]).2
      (fun s hs => by
        rw [List.mem_singleton.mp hs]; exact Or.inr rfl)⟩

/-! ## ScoringEngine (`JobMatcherService._calculate_match_score`) -/

/-- Python's `str.lower()`, character-wise (a structural equivalent of
`String.toLower`). -/
def lowerString (s : String) : String := ⟨s.data.map Char.toLower⟩

/-- The keyword list at `matcher.py` lines 182-186. -/
def commonSkills : List String :=
  ["python", "java", "javascript", "react", "angular", "vue", "node.js",
    "sql", "postgresql", "mysql", "mongodb", "aws", "azure", "docker",
    "kubernetes", "git", "linux", "fastapi", "django", "flask"]

/-- `matcher.py` lines 174-190: the `job_skills` set — lowercased
requirement strings, plus every common skill occurring as a substring of
the lowercased description-plus-requirements text. -/
def jobSkillSet (job : JobDetails) : Finset String :=
  let fromRequirements := job.requirements.map lowerString
  let jobText :=
    lowerString (job.description ++ " " ++ String.intercalate " " job.requirements)
  let fromCommon := commonSkills.filter (fun s => strContainsSub jobText s)
  (fromRequirements ++ fromCommon).toFinset

/-- `_calculate_skills_match`, `matcher.py` lines 167-199: 0.3 when no
skill tokens are found, else the overlap ratio capped at 1. -/
def skillsMatchScore (profile : UserProfile) (job : JobDetails) : ℚ :=
  let userSkills := (profile.skills.map lowerString).toFinset
  let jobSkills := jobSkillSet job
  if jobSkills = ∅ then 3 / 10
  else min (((userSkills ∩ jobSkills).card : ℚ) / (jobSkills.card : ℚ)) 1

/-- The `experience_mapping` dict at `matcher.py` lines 212-218, with the
`.get(..., 4)` default for unknown levels. -/
def experienceMapping (level : String) : ℕ :=
  if level = "entry" then 0
  else if level = "associate" then 2
  else if level = "mid" then 4
  else if level = "senior" then 7
  else if level = "executive" then 10
  else 4

/-- `_calculate_experience_match`, `matcher.py` lines 205-231: the
candidate's years proxy is the length of the profile's experience list; an
empty (falsy) experience level maps to "mid". -/
def experienceMatchScore (profile : UserProfile) (job : JobDetails) : ℚ :=
  let userYears : ℚ := profile.experience.length
  let level :=
    if job.experienceLevel = "" then "mid" else lowerString job.experienceLevel
  let requiredYears : ℚ := experienceMapping level
  if requiredYears ≤ userYears then 1
  else if requiredYears * (7 / 10) ≤ userYears then 4 / 5
  else if requiredYears * (1 / 2) ≤ userYears then 3 / 5
  else 3 / 10

/-- `_calculate_location_match`, `matcher.py` lines 237-255: 1.0 when the
posting mentions remote or contains the candidate's (non-empty) location as
a substring, else the neutral 0.5. -/
def locationMatchScore (profile : UserProfile) (job : JobDetails) : ℚ :=
  let jobLocation := lowerString job.location
  if strContainsSub jobLocation "remote" then 1
  else if (profile.location != "") &&
      strContainsSub jobLocation (lowerString profile.location) then 1
  else 1 / 2

/-- `_calculate_semantic_similarity`, `matcher.py` lines 141-165: the
cosine similarity between the profile and job embeddings is computed by the
external provider stack; `none` models every fallback path (missing
embedding, library unavailable, provider exception), which returns 0.5.  A
cosine similarity lies in [-1, 1] and is passed through unchanged. -/
def semanticSimilarityScore (cosine : Option ℚ) : ℚ :=
  match cosine with
  | none => 1 / 2
  | some c => c

/-- `_calculate_ai_match_score`, `matcher.py` lines 261-297: the AI-judge
reply, parsed as a number and clamped via `max(0.0, min(1.0, score))`;
`none` models every error path (no API key, call failure, non-numeric
reply), which returns 0.5. -/
def aiMatchScore (judgeReply : Option ℚ) : ℚ :=
  match judgeReply with
  | none => 1 / 2
  | some s => max 0 (min 1 s)

/-- `_calculate_match_score`, `matcher.py` lines 104-135: the weighted sum
of the five sub-signals, then `min(final_score, 1.0)` — capped above at 1
only; there is no clamp below. -/
def calculateMatchScore (profile : UserProfile) (job : JobDetails)
    (cosine judgeReply : Option ℚ) : ℚ :=
  let semanticScore := semanticSimilarityScore cosine
  let skillsScore := skillsMatchScore profile job
  let experienceScore := experienceMatchScore profile job
  let locationScore := locationMatchScore profile job
  let aiScore := aiMatchScore judgeReply
  min (semanticScore * (3 / 10) + skillsScore * (3 / 10) +
    experienceScore * (1 / 5) + locationScore * (1 / 10) +
    aiScore * (1 / 10)) 1

theorem skillsMatchScore_mem (profile : UserProfile) (job : JobDetails) :
    0 ≤ skillsMatchScore profile job ∧ skillsMatchScore profile job ≤ 1 := by
  unfold skillsMatchScore
  dsimp only
  split
  · norm_num
  · constructor
    · exact le_min (div_nonneg (Nat.cast_nonneg _) (Nat.cast_nonneg _))
        (by norm_num)
    · exact min_le_right _ _

theorem experienceMatchScore_mem (profile : UserProfile) (job : JobDetails) :
    0 ≤ experienceMatchScore profile job ∧
      experienceMatchScore profile job ≤ 1 := by
  unfold experienceMatchScore
  dsimp only
  split_ifs <;> norm_num

theorem locationMatchScore_mem (profile : UserProfile) (job : JobDetails) :
    0 ≤ locationMatchScore profile job ∧
      locationMatchScore profile job ≤ 1 := by
  unfold locationMatchScore
  dsimp only
  split_ifs <;> norm_num

theorem aiMatchScore_mem (judgeReply : Option ℚ) :
    0 ≤ aiMatchScore judgeReply ∧ aiMatchScore judgeReply ≤ 1 := by
  unfold aiMatchScore
  cases judgeReply with
  | none => norm_num
  | some s =>
      refine ⟨le_max_left 0 _, max_le (by norm_num) (min_le_left 1 s)⟩

/-- The candidate profile of the concrete scoring counterexample. -/
def exProfileC1 : UserProfile :=
  { skills := [], experience := [], location := "" }

/-- The posting of the concrete scoring counterexample. -/
def exJobC1 : JobDetails :=
  { id := "job-1", title := "Dev", company := "acme", location := "Paris",
    url := "https://example.org/1", description := "",
    requirements := ["Python"], jobType := "", experienceLevel := "Senior",
    matchScore := none }

/-- Claim C1, counterexample: the weighted sum is not clamped below.  With
a cosine similarity of -1 (antipodal embeddings; cosine ranges over
[-1, 1]), a posting with skill tokens but no overlap (skills 0), a senior
posting against an empty experience list (experience 0.3), a non-remote
non-matching location (0.5) and a judge reply of 0 (ai 0), the overall
score is -19/100 < 0, outside [0, 1]. -/
theorem overall_score_not_clamped_below :
    calculateMatchScore exProfileC1 exJobC1 (some (-1)) (some 0) = -19 / 100 ∧
      (-19 / 100 : ℚ) < 0 := by
  have hjs : jobSkillSet exJobC1 = {"python"} := by decide
  have hsk : skillsMatchScore exProfileC1 exJobC1 = 0 := by
    unfold skillsMatchScore
    dsimp only
    rw [hjs, if_neg (by decide)]
    have h1 : ((exProfileC1.skills.map lowerString).toFinset ∩
        ({"python"} : Finset String)).card = 0 := by decide
    have h2 : ({"python"} : Finset String).card = 1 := by decide
    rw [h1, h2]
    norm_num
  have hexp : experienceMatchScore exProfileC1 exJobC1 = 3 / 10 := by
    unfold experienceMatchScore
    dsimp only
    have hlv : (if exJobC1.experienceLevel = "" then "mid"
        else lowerString exJobC1.experienceLevel) = "senior" := by decide
    rw [hlv]
    have hm : experienceMapping "senior" = 7 := by decide
    rw [hm]
    have hlen : exProfileC1.experience.length = 0 := by decide
    rw [hlen]
    norm_num
  have hloc : locationMatchScore exProfileC1 exJobC1 = 1 / 2 := by
    unfold locationMatchScore
    dsimp only
    have h1 : strContainsSub (lowerString exJobC1.location) "remote" = false := by
      decide
    have h2 : (exProfileC1.location != "") = false := by decide
    simp [h1, h2]
  constructor
  · unfold calculateMatchScore
    dsimp only
    rw [hsk, hexp, hloc]
    unfold semanticSimilarityScore aiMatchScore
    dsimp only
    norm_num [min_def, max_def]
  · norm_num

/-- Claim C1, amended: the overall score is the weighted sum capped above
at 1 only (`min(final_score, 1.0)`; there is no lower clamp), so it lies in
[0, 1] whenever the externally supplied cosine similarity is nonnegative —
in particular on every fallback path — while the skills, experience,
location and AI sub-signals always lie in [0, 1]. -/
theorem overall_score_in_unit_of_nonneg_semantic (profile : UserProfile)
    (job : JobDetails) (cosine judgeReply : Option ℚ)
    (hcos : ∀ c, cosine = some c → 0 ≤ c ∧ c ≤ 1) :
    0 ≤ calculateMatchScore profile job cosine judgeReply ∧
      calculateMatchScore profile job cosine judgeReply ≤ 1 := by
  have hsem : 0 ≤ semanticSimilarityScore cosine ∧
      semanticSimilarityScore cosine ≤ 1 := by
    cases h : cosine with
    | none => unfold semanticSimilarityScore; norm_num
    | some c =>
        have := hcos c h
        unfold semanticSimilarityScore
        exact this
  have hsk := skillsMatchScore_mem profile job
  have hexp := experienceMatchScore_mem profile job
  have hloc := locationMatchScore_mem profile job
  have hai := aiMatchScore_mem judgeReply
  unfold calculateMatchScore
  constructor
  · refine le_min ?_ (by norm_num)
    nlinarith [hsem.1, hsk.1, hexp.1, hloc.1, hai.1]
  · exact min_le_right _ _

/-- Witness for the amended C1 on the fallback path (provider errors on
both external signals). -/
theorem overall_score_in_unit_witness :
    0 ≤ calculateMatchScore exProfileC1 exJobC1 none none ∧
      calculateMatchScore exProfileC1 exJobC1 none none ≤ 1 :=
  overall_score_in_unit_of_nonneg_semantic exProfileC1 exJobC1 none none
    (fun c h => by cases h)

/-! ## Orchestrator selection (`match_jobs` + `_search_suitable_jobs`) -/

/-- `matcher.py` line 91: `job.match_score = match_score` — the computed
score is recorded on the job. -/
def setMatchScore (f : JobDetails → ℚ) (job : JobDetails) : JobDetails :=
  { job with matchScore := some (f job) }

/-- `match_jobs`, `matcher.py` lines 76-98 (non-exceptional path): each
job's score is computed — `f` abstracts `_calculate_match_score`, which
calls external providers — recorded on the job, and the job is kept iff
`match_score >= settings.SIMILARITY_THRESHOLD` (boundary inclusive). -/
def matchJobs (f : JobDetails → ℚ) (similarityThreshold : ℚ)
    (jobs : List JobDetails) : List JobDetails :=
  jobs.filterMap (fun job =>
    if similarityThreshold ≤ f job then some (setMatchScore f job) else none)

/-- `job.match_score or 0`: `None` gives 0, and a stored 0.0 is falsy but
`or` then also yields 0, the same value. -/
def matchScoreOrZero (job : JobDetails) : ℚ := job.matchScore.getD 0

/-- `auto_apply.py` lines 104-108: match against the profile, then keep the
jobs with `(job.match_score or 0) >= min_score` (boundary inclusive). -/
def suitableJobs (f : JobDetails → ℚ) (similarityThreshold minScore : ℚ)
    (jobs : List JobDetails) : List JobDetails :=
  (matchJobs f similarityThreshold jobs).filter
    (fun job => decide (minScore ≤ matchScoreOrZero job))

/-- `auto_apply.py` lines 110-113: stable sort by score descending and
return the top `maxPerRun`. -/
def searchSuitableJobs (f : JobDetails → ℚ) (similarityThreshold minScore : ℚ)
    (maxPerRun : ℕ) (jobs : List JobDetails) : List JobDetails :=
  ((suitableJobs f similarityThreshold minScore jobs).mergeSort
    (fun a b => decide (matchScoreOrZero b ≤ matchScoreOrZero a))).take maxPerRun

/-- A scoring function that assigns the same score to every job. -/
def constScore (q : ℚ) : JobDetails → ℚ := fun _ => q

/-- A discovered posting used in the concrete selection evaluations. -/
def exJobC2 : JobDetails :=
  { id := "job-2", title := "Data Engineer", company := "acme",
    location := "Berlin", url := "https://example.org/2", description := "",
    requirements := [], jobType := "", experienceLevel := "",
    matchScore := none }

/-- Claim C2, counterexample: with the config similarity threshold at its
default 0.8 and the run threshold T = 0.7 (the request default), a job
scoring 0.75 satisfies score ≥ T yet is not selected — `match_jobs` drops
it first — so the selected set is not `{j : score(j) ≥ T}`. -/
theorem matched_selection_misses_threshold_job :
    searchSuitableJobs (constScore (3 / 4)) (4 / 5) (7 / 10) 5 [exJobC2] = [] ∧
      (7 / 10 : ℚ) ≤ constScore (3 / 4) exJobC2 := by
  constructor
  · have h : suitableJobs (constScore (3 / 4)) (4 / 5) (7 / 10) [exJobC2] = [] := by
      norm_num [suitableJobs, matchJobs, constScore]
    unfold searchSuitableJobs
    rw [h]
    simp
  · norm_num [constScore]

/-- Claim C2, amended: the selection is boundary-inclusive and never
includes a job scoring below the run threshold T, but it is cut twice more:
a job enters the pre-cap suitable list iff it comes from the input list and
its score is ≥ both the config similarity threshold and T; the returned
list is additionally capped to the top `maxPerRun` of that list, of which
it is a subset.  The selected set equals `{j : score(j) ≥ T}` only when the
similarity threshold is ≤ T and the cap is not reached. -/
theorem suitable_jobs_characterization (f : JobDetails → ℚ)
    (similarityThreshold minScore : ℚ) (maxPerRun : ℕ)
    (jobs : List JobDetails) (j : JobDetails) :
    (j ∈ suitableJobs f similarityThreshold minScore jobs ↔
      ∃ j₀ ∈ jobs, j = setMatchScore f j₀ ∧
        similarityThreshold ≤ f j₀ ∧ minScore ≤ f j₀) ∧
    (j ∈ searchSuitableJobs f similarityThreshold minScore maxPerRun jobs →
      j ∈ suitableJobs f similarityThreshold minScore jobs) := by
  constructor
  · constructor
    · intro hj
      rcases List.mem_filter.mp hj with ⟨hmem, hT⟩
      rcases List.mem_filterMap.mp hmem with ⟨a, ha, hif⟩
      by_cases hS : similarityThreshold ≤ f a
      · rw [if_pos hS] at hif
        have hj' : j = setMatchScore f a := (Option.some_inj.mp hif).symm
        refine ⟨a, ha, hj', hS, ?_⟩
        have hms : matchScoreOrZero j = f a := by
          rw [hj']; rfl
        have := of_decide_eq_true hT
        rwa [hms] at this
      · rw [if_neg hS] at hif
        cases hif
    · rintro ⟨j₀, hj₀, rfl, hS, hT⟩
      refine List.mem_filter.mpr ⟨?_, ?_⟩
      · exact List.mem_filterMap.mpr ⟨j₀, hj₀, by rw [if_pos hS]⟩
      · have hms : matchScoreOrZero (setMatchScore f j₀) = f j₀ := rfl
        exact decide_eq_true (by rw [hms]; exact hT)
  · intro hj
    unfold searchSuitableJobs at hj
    have h1 := List.mem_of_mem_take hj
    exact (List.mergeSort_perm _ _).mem_iff.mp h1

/-- Witness for the amended C2 at a concrete scoring function, thresholds
and job list. -/
theorem suitable_jobs_characterization_witness :
    (exJobC2 ∈ suitableJobs (constScore (9 / 10)) (4 / 5) (7 / 10) [exJobC2] ↔
      ∃ j₀ ∈ [exJobC2], exJobC2 = setMatchScore (constScore (9 / 10)) j₀ ∧
        (4 / 5 : ℚ) ≤ constScore (9 / 10) j₀ ∧
        (7 / 10 : ℚ) ≤ constScore (9 / 10) j₀) ∧
    (exJobC2 ∈ searchSuitableJobs (constScore (9 / 10)) (4 / 5) (7 / 10) 5
        [exJobC2] →
      exJobC2 ∈ suitableJobs (constScore (9 / 10)) (4 / 5) (7 / 10)
        [exJobC2]) :=
  suitable_jobs_characterization (constScore (9 / 10)) (4 / 5) (7 / 10) 5
    [exJobC2] exJobC2
